import Mathlib

/-!
Verification of the `events` package (`pkg/events/watermill.go`): a
PostgreSQL-backed pub/sub EventBus built on Watermill.  The Go code is
shallowly embedded below: the retry engine (`retryWithBackoff`), the
Subscribe dispatch loop (ack/nack routing and the bounded error channel),
the forwarder startup guards (`StartForwarder`), graceful shutdown
(`Close`), and the Publish-side trace injection with the Subscribe-side
extraction.  Durations are modelled in seconds, errors as `String`
payloads, and Go's `context.Context` cancellation as the index of the
first backoff sleep during which the cancellation signal is observed.
-/

set_option autoImplicit false

namespace Events

/-! ## Constants (watermill.go, `const` block) -/

/-- Go constant `maxRetries = 3`. -/
def maxRetries : Nat := 3

/-- Go constant `retryBaseDelay = time.Second` (modelled in seconds). -/
def retryBaseDelay : Nat := 1

/-- Go constant `shutdownTimeout = 30 * time.Second` (modelled in seconds). -/
def shutdownTimeout : Nat := 30

/-- Go constant `forwarderTopic = "_forwarder_queue"` — internal outbox topic for the
Forwarder daemon. -/
def forwarderTopic : String := "_forwarder_queue"

/-- Capacity of the error channel created by `Subscribe`:
`errCh := make(chan error, 100)`. -/
def errChanCap : Nat := 100

/-! ## Retry engine (`retryWithBackoff`)

The Go function:

```
delay := baseDelay
var err error
for attempt := 1; attempt <= maxRetries; attempt++ {
    if err = handler(ctx, msg); err == nil { return nil }
    if attempt < maxRetries {
        log.WarnContext(...)
        select {
        case <-ctx.Done(): return ctx.Err()
        case <-time.After(delay):
        }
        delay *= 2
    }
}
return fmt.Errorf("events: handler failed after %d retries: %w", maxRetries, err)
```

The handler is embedded as a function from the (1-based) attempt number to
`Option String` (`none` = the handler returned `nil`, `some e` = it
returned error `e`).  Cancellation is embedded as `cancelAt : Option Nat`:
`some j` means the context's `Done` channel is ready by the time the
engine sits in backoff sleep number `j` (and, cancellation being
permanent, in every later sleep); `some 0` is a context already cancelled
on entry; `none` is a context that never cancels.  The `select` picks
`ctx.Done()` exactly when the signal fires before the sleep timer. -/

/-- Result of one run of the retry engine, mirroring the Go return value. -/
inductive RetryResult where
  /-- the handler returned `nil`: the engine returns `nil` -/
  | ok
  /-- the engine returned `ctx.Err()` from the backoff `select` -/
  | cancelled
  /-- Go value `fmt.Errorf("events: handler failed after %d retries: %w", maxRetries, err)`
  (`lastErr` is Go's `err` variable at loop exit; `none` only when the
  loop body never ran). -/
  | failedAfter (maxRetries : Nat) (lastErr : Option String)
  deriving DecidableEq, Repr

/-- Observable trace of one run of the retry engine: how many times the
handler was invoked, which backoff sleeps ran to completion (their
durations, in order), and the returned value. -/
structure RetryTrace where
  invocations : Nat
  sleeps : List Nat
  result : RetryResult
  deriving DecidableEq, Repr

/-- Whether the context cancellation signal is observed during backoff
sleep number `i` (sleep `i` is the one following attempt `i`). -/
def cancelObserved (cancelAt : Option Nat) (i : Nat) : Bool :=
  match cancelAt with
  | none => false
  | some j => decide (j ≤ i)

/-- The loop of `retryWithBackoff`, structurally recursive on `remaining`,
the number of loop iterations the `for` condition still allows
(`remaining = maxRetries - attempt + 1` at every call; the top-level call
is `remaining = maxRetries, attempt = 1`).  The `remaining = 0` base case
is Go's loop exiting with `err` still `nil`, reachable only when
`maxRetries < 1`; the `remaining' = 0` branch below merges the final
failing iteration with the loop exit that immediately follows it. -/
def retryGo (handler : Nat → Option String) (cancelAt : Option Nat)
    (maxRetries : Nat) : Nat → Nat → Nat → RetryTrace
  | 0, attempt, _ =>
    { invocations := attempt - 1, sleeps := [], result := .failedAfter maxRetries none }
  | remaining' + 1, attempt, delay =>
    match handler attempt with
    | none => { invocations := attempt, sleeps := [], result := .ok }
    | some e =>
      if remaining' = 0 then
        { invocations := attempt, sleeps := [],
          result := .failedAfter maxRetries (some e) }
      else
        if cancelObserved cancelAt attempt then
          { invocations := attempt, sleeps := [], result := .cancelled }
        else
          let t := retryGo handler cancelAt maxRetries remaining' (attempt + 1) (delay * 2)
          { t with sleeps := delay :: t.sleeps }

/-- Embeds `retryWithBackoff(ctx, msg, handler, maxRetries, baseDelay, log)`. -/
def retryWithBackoff (handler : Nat → Option String) (cancelAt : Option Nat)
    (maxRetries baseDelay : Nat) : RetryTrace :=
  retryGo handler cancelAt maxRetries maxRetries 1 baseDelay

example :
    retryWithBackoff (fun _ => some "boom") none maxRetries retryBaseDelay
      = ⟨3, [1, 2], .failedAfter 3 (some "boom")⟩ := by decide

example :
    retryWithBackoff (fun n => if n = 2 then none else some "boom") none maxRetries retryBaseDelay
      = ⟨2, [1], .ok⟩ := by decide

example :
    retryWithBackoff (fun _ => some "boom") (some 1) maxRetries retryBaseDelay
      = ⟨1, [], .cancelled⟩ := by decide

example :
    retryWithBackoff (fun _ => some "boom") (some 0) maxRetries retryBaseDelay
      = ⟨1, [], .cancelled⟩ := by decide

example :
    retryWithBackoff (fun _ => none) (some 0) maxRetries retryBaseDelay
      = ⟨1, [], .ok⟩ := by decide

/-! ## Subscribe dispatch loop (`EventBus.Subscribe`)

Per delivered message the Go goroutine runs:

```
if err := retryWithBackoff(msgCtx, msg, handler, maxRetries, retryBaseDelay, q.log); err != nil {
    msg.Nack()
    select {
    case errCh <- err:
    default:
        q.log.ErrorContext(msgCtx, "events: error channel full, dropping error", ...)
    }
} else {
    msg.Ack()
}
```

with `errCh := make(chan error, 100)`.  The channel is embedded as the
list of errors buffered and not yet drained; the non-blocking send
succeeds exactly when the buffer holds fewer than `errChanCap` errors. -/

/-- Whether the retry engine's return value is a non-nil error. -/
def RetryResult.isErr : RetryResult → Bool
  | .ok => false
  | .cancelled => true
  | .failedAfter _ _ => true

/-- What the dispatch loop did with one message. -/
structure MsgOutcome where
  acked : Bool
  nacked : Bool
  /-- the final error was sent on the error channel -/
  sent : Bool
  /-- the final error was dropped (and logged) because the channel was full -/
  dropped : Bool
  deriving DecidableEq, Repr

/-- Dispatch of a single message: `buf` is the error-channel buffer before
this message, `r` the retry engine's return value.  Returns the outcome
and the buffer afterwards. -/
def dispatchOne (buf : List RetryResult) (r : RetryResult) :
    MsgOutcome × List RetryResult :=
  if r.isErr then
    if buf.length < errChanCap then
      (⟨false, true, true, false⟩, buf ++ [r])
    else
      (⟨false, true, false, true⟩, buf)
  else
    (⟨true, false, false, false⟩, buf)

/-- The dispatch loop over a finite run of delivered messages, each already
reduced to its retry engine result; threads the error-channel buffer and
records every per-message outcome in order. -/
def dispatchLoop (buf : List RetryResult) :
    List RetryResult → List MsgOutcome × List RetryResult
  | [] => ([], buf)
  | r :: rs =>
    let step := dispatchOne buf r
    let rest := dispatchLoop step.2 rs
    (step.1 :: rest.1, rest.2)

/-! ## Graceful shutdown (`EventBus.Close`)

```
if err := q.subscriber.Close(); err != nil { return fmt.Errorf("events: close subscriber: %w", err) }
if q.fwd != nil {
    if err := q.fwd.Close(); err != nil { return fmt.Errorf("events: close forwarder: %w", err) }
}
done := make(chan struct{}); go func() { q.wg.Wait(); close(done) }()
ctx, cancel := context.WithTimeout(context.Background(), shutdownTimeout); defer cancel()
select {
case <-done:
case <-ctx.Done():
    q.log.Error("events: timed out waiting for in-flight handlers to complete")
}
if err := q.publisher.Close(); err != nil { return fmt.Errorf("events: close publisher: %w", err) }
return q.db.Close()
```

The environment records which underlying `Close` calls would fail and
whether the in-flight wait would exceed `shutdownTimeout`. -/

/-- The individual shutdown actions `Close` can perform, in source order. -/
inductive CloseStep where
  | closeSub
  | closeFwd
  | waitHandlers
  | closePub
  | closeDb
  deriving DecidableEq, Repr

/-- Behaviour of the collaborators during one `Close` call. -/
structure CloseEnv where
  /-- field `q.fwd != nil` -/
  fwdRunning : Bool
  subCloseFails : Bool
  fwdCloseFails : Bool
  /-- whether `q.wg.Wait()` takes longer than `shutdownTimeout` -/
  waitTimesOut : Bool
  pubCloseFails : Bool
  dbCloseFails : Bool
  deriving DecidableEq, Repr

/-- The (wrapped) error `Close` returns, by failing step. -/
inductive CloseResult where
  | ok
  | subFail
  | fwdFail
  | pubFail
  | dbFail
  deriving DecidableEq, Repr

/-- Observable trace of one `Close` call. -/
structure CloseRun where
  /-- shutdown actions attempted, in order -/
  steps : List CloseStep
  /-- the timeout branch of the wait `select` was taken and logged -/
  timedOutLogged : Bool
  result : CloseResult
  deriving DecidableEq, Repr

/-- Embeds `EventBus.Close`. -/
def closeBus (env : CloseEnv) : CloseRun :=
  if env.subCloseFails then
    ⟨[.closeSub], false, .subFail⟩
  else if env.fwdRunning && env.fwdCloseFails then
    ⟨[.closeSub, .closeFwd], false, .fwdFail⟩
  else
    let pre := (if env.fwdRunning then [CloseStep.closeSub, .closeFwd] else [.closeSub])
      ++ [CloseStep.waitHandlers]
    if env.pubCloseFails then
      ⟨pre ++ [.closePub], env.waitTimesOut, .pubFail⟩
    else if env.dbCloseFails then
      ⟨pre ++ [.closePub, .closeDb], env.waitTimesOut, .dbFail⟩
    else
      ⟨pre ++ [.closePub, .closeDb], env.waitTimesOut, .ok⟩

/-! ## Forwarder startup (`EventBus.StartForwarder`)

```
if !q.useForwarder { return fmt.Errorf("events: StartForwarder called on non-forwarder EventBus") }
if q.fwd != nil { return fmt.Errorf("events: forwarder already started") }
fwdSub, err := watermillsql.NewSubscriber(...);  if err != nil { return ... }
targetPub, err := watermillsql.NewPublisher(...); if err != nil { return ... }
fwd, err := forwarder.NewForwarder(...);          if err != nil { return ... }
q.fwd = fwd
q.wg.Add(1); go func() { ... fwd.Run(ctx) ... }()
select { case <-fwd.Running(): case <-ctx.Done(): return ... }
return nil
```
-/

/-- The distinct error values `StartForwarder` can return. -/
inductive StartErr where
  /-- configuration error: bus not created with `NewEventBusWithForwarder` -/
  | notForwarderBus
  /-- configuration error: `q.fwd != nil` already -/
  | alreadyStarted
  /-- storage failure creating the forwarder's subscriber -/
  | newSubscriberFailed
  /-- storage failure creating the forwarder's target publisher -/
  | newTargetPublisherFailed
  | createForwarderFailed
  /-- context cancelled while waiting on `fwd.Running()` -/
  | ctxCancelledWaiting
  deriving DecidableEq, Repr

/-- The bus fields `StartForwarder` reads and writes. -/
structure BusState where
  useForwarder : Bool
  /-- field `q.fwd != nil` -/
  fwdSet : Bool
  deriving DecidableEq, Repr

/-- Behaviour of the collaborators during one `StartForwarder` call. -/
structure StartEnv where
  subFails : Bool
  pubFails : Bool
  createFails : Bool
  ctxCancelledBeforeRunning : Bool
  deriving DecidableEq, Repr

/-- Observable trace of one `StartForwarder` call. -/
structure StartRun where
  err : Option StartErr
  /-- the bus state after the call returns -/
  state : BusState
  /-- the `fwd.Run` goroutine was spawned -/
  goroutineStarted : Bool
  deriving DecidableEq, Repr

/-- Embeds `EventBus.StartForwarder`. -/
def startForwarder (s : BusState) (env : StartEnv) : StartRun :=
  if !s.useForwarder then
    ⟨some .notForwarderBus, s, false⟩
  else if s.fwdSet then
    ⟨some .alreadyStarted, s, false⟩
  else if env.subFails then
    ⟨some .newSubscriberFailed, s, false⟩
  else if env.pubFails then
    ⟨some .newTargetPublisherFailed, s, false⟩
  else if env.createFails then
    ⟨some .createForwarderFailed, s, false⟩
  else if env.ctxCancelledBeforeRunning then
    ⟨some .ctxCancelledWaiting, { s with fwdSet := true }, true⟩
  else
    ⟨none, { s with fwdSet := true }, true⟩

/-! ## Publish, trace propagation and the outbox indirection

`EventBus.Publish`:

```
carrier := propagation.MapCarrier{}
otel.GetTextMapPropagator().Inject(ctx, carrier)
for _, msg := range msgs {
    for k, v := range carrier { msg.Metadata.Set(k, v) }
}
if err := q.publisher.Publish(topic, msgs...); err != nil { ... }
```

and in the `Subscribe` goroutine:

```
carrier := propagation.MapCarrier{}
for k, v := range msg.Metadata { carrier[k] = v }
msgCtx := propagator.Extract(ctx, carrier)
```

`message.Metadata` is a `map[string]string`; it is embedded as an
association list where `Set` overwrites the existing binding. -/

/-- A Watermill message: payload plus string-to-string metadata. -/
structure Msg where
  payload : String
  metadata : List (String × String)
  deriving DecidableEq, Repr

/-- Embeds `Metadata.Set(k, v)` — map update: drop any existing binding of `k`
and bind `k` to `v`. -/
def metaSet (md : List (String × String)) (k v : String) : List (String × String) :=
  md.filter (fun p => !(p.1 == k)) ++ [(k, v)]

/-- Map lookup on embedded metadata. -/
def metaGet (md : List (String × String)) (k : String) : Option String :=
  (md.find? (fun p => p.1 == k)).map (fun p => p.2)

/-- Modelled from the spec: the trace propagation boundary
(`otel.GetTextMapPropagator()`, absent from src — an external library) is
an injector/extractor pair over a flat string-to-string carrier.  A trace
context is a trace identifier; `Inject` writes it into the carrier under
one propagation key, `Extract` reads that key back. -/
def traceKey : String := "traceparent"

/-- Modelled from the spec: `propagator.Inject(ctx, carrier)` — the
key-value pairs the propagator writes for the trace context active in
`ctx` (`none`: no trace active, nothing written). -/
def injectTrace (tc : Option String) : List (String × String) :=
  match tc with
  | some tid => [(traceKey, tid)]
  | none => []

/-- Modelled from the spec: `propagator.Extract(ctx, carrier)` — the trace
context recovered from a carrier. -/
def extractTrace (carrier : List (String × String)) : Option String :=
  metaGet carrier traceKey

/-- The metadata mutation `Publish` performs on one message: every
key-value pair of the injected carrier is `Set` into the metadata. -/
def publishInject (tc : Option String) (m : Msg) : Msg :=
  { m with metadata := (injectTrace tc).foldl (fun md kv => metaSet md kv.1 kv.2) m.metadata }

/-- The carrier the `Subscribe` goroutine rebuilds from a delivered
message (a copy of all its metadata) and the trace context it extracts. -/
def subscribeExtract (m : Msg) : Option String :=
  extractTrace m.metadata

/-- A write against the Watermill SQL store, as issued by the publisher in
use.  `direct` is the plain SQL publisher writing the message to the
caller's topic; `envelope` is the forwarder-decorated publisher writing an
Outbox Envelope — carrying the destination topic and the original message
— to the internal forwarder queue topic (modelled from the spec:
`forwarder.NewPublisher`'s envelope wrapping lives in the Watermill
library, absent from src). -/
inductive StoreWrite where
  | direct (topic : String) (m : Msg)
  | envelope (queueTopic : String) (destTopic : String) (m : Msg)
  deriving DecidableEq, Repr

/-- Embeds `EventBus.Publish(ctx, topic, msgs...)`: inject the caller's trace
context into every message's metadata, then hand all messages to
`q.publisher` for `topic`.  In a bus built by `newEventBus` with
`useForwarder`, `q.publisher` is `forwarder.NewPublisher(pub,
forwarder.PublisherConfig{ForwarderTopic: forwarderTopic})`; otherwise it
is the plain SQL publisher. -/
def busPublish (useForwarder : Bool) (tc : Option String) (topic : String)
    (msgs : List Msg) : List StoreWrite :=
  let injected := msgs.map (publishInject tc)
  if useForwarder then
    injected.map (StoreWrite.envelope forwarderTopic topic)
  else
    injected.map (StoreWrite.direct topic)

/-- Embeds `EventBus.NewTxPublisher(tx)`: the returned publisher is the plain
transaction-bound SQL publisher, wrapped by `forwarder.NewPublisher` with
the same `forwarderTopic` exactly when the bus is in forwarder mode.  (No
trace injection here: that happens only in `EventBus.Publish`.) -/
def txPublish (useForwarder : Bool) (topic : String) (msgs : List Msg) :
    List StoreWrite :=
  if useForwarder then
    msgs.map (StoreWrite.envelope forwarderTopic topic)
  else
    msgs.map (StoreWrite.direct topic)

example :
    subscribeExtract (publishInject (some "tid-1") ⟨"p", [("traceparent", "old"), ("x", "y")]⟩)
      = some "tid-1" := by decide

example :
    busPublish true (some "t") "orders" [⟨"p", []⟩]
      = [.envelope "_forwarder_queue" "orders" ⟨"p", [("traceparent", "t")]⟩] := by decide

/-! ## Helper lemmas about the retry engine -/

/-- As long as the loop condition still holds (`1 ≤ remaining`), the
handler is invoked at least once more, so the final invocation count is at
least the current attempt number. -/
theorem retryGo_le_invocations (handler : Nat → Option String) (cancelAt : Option Nat)
    (mr : Nat) :
    ∀ (remaining attempt delay : Nat), 1 ≤ remaining →
      attempt ≤ (retryGo handler cancelAt mr remaining attempt delay).invocations := by
  intro remaining
  induction remaining with
  | zero => intro attempt delay h; omega
  | succ r ih =>
    intro attempt delay _
    rw [retryGo]
    cases hh : handler attempt with
    | none => simp
    | some e =>
      by_cases hr : r = 0
      · simp [hr]
      · by_cases hc : cancelObserved cancelAt attempt
        · simp [hr, hc]
        · have := ih (attempt + 1) (delay * 2) (by omega)
          simp only [hr, hc, if_false, Bool.false_eq_true]
          omega

/-- Splitting off the first element of the doubling-delay schedule. -/
theorem range_map_pow_shift (delay n : Nat) :
    (List.range (n + 1)).map (fun i => delay * 2 ^ i)
      = delay :: (List.range n).map (fun i => delay * 2 * 2 ^ i) := by
  rw [List.range_succ_eq_map, List.map_cons, List.map_map]
  refine congrArg₂ _ (by simp) (congrArg (fun f => List.map f (List.range n)) ?_)
  funext i
  simp only [Function.comp_apply, pow_succ]
  ring

/-- With a never-cancelling context, the completed backoff sleeps of a run
starting at `attempt` with current delay `delay` are exactly `delay,
2·delay, 4·delay, …`, one per further attempt actually made. -/
theorem retryGo_sleeps_schedule (handler : Nat → Option String) (mr : Nat) :
    ∀ (remaining attempt delay : Nat),
      (retryGo handler none mr remaining attempt delay).sleeps
        = (List.range ((retryGo handler none mr remaining attempt delay).invocations - attempt)).map
            (fun i => delay * 2 ^ i) := by
  intro remaining
  induction remaining with
  | zero => intro attempt delay; simp [retryGo]
  | succ r ih =>
    intro attempt delay
    rw [retryGo]
    cases hh : handler attempt with
    | none => simp
    | some e =>
      by_cases hr : r = 0
      · simp [hr]
      · have hge := retryGo_le_invocations handler none mr r (attempt + 1) (delay * 2)
          (by omega)
        have hc : cancelObserved none attempt = false := rfl
        simp only [hr, hc, if_false, Bool.false_eq_true]
        have hsub :
            (retryGo handler none mr r (attempt + 1) (delay * 2)).invocations - attempt
              = ((retryGo handler none mr r (attempt + 1) (delay * 2)).invocations
                  - (attempt + 1)) + 1 := by omega
        simp only [hsub, range_map_pow_shift]
        exact congrArg _ (ih (attempt + 1) (delay * 2))

/-- Each dispatched message is either Acked or Nacked, whatever the retry
outcome and the state of the error channel. -/
theorem dispatchOne_acks_or_nacks (buf : List RetryResult) (r : RetryResult) :
    ((dispatchOne buf r).1.acked || (dispatchOne buf r).1.nacked) = true := by
  unfold dispatchOne
  by_cases h : r.isErr
  · by_cases hlen : buf.length < errChanCap <;> simp [h, hlen]
  · simp [h]

/-- The dispatch loop produces one outcome per delivered message, and every
one of them is an Ack or a Nack — no message stalls the loop. -/
theorem dispatchLoop_progress :
    ∀ (ms : List RetryResult) (buf : List RetryResult),
      (dispatchLoop buf ms).1.length = ms.length
      ∧ (dispatchLoop buf ms).1.map (fun o => o.acked || o.nacked)
          = ms.map (fun _ => true) := by
  intro ms
  induction ms with
  | nil => intro buf; simp [dispatchLoop]
  | cons r rs ih =>
    intro buf
    have h1 := dispatchOne_acks_or_nacks buf r
    have h2 := ih (dispatchOne buf r).2
    simp [dispatchLoop, h1, h2.1, h2.2]

/-! ## Claim theorems -/

/-- C1: a handler that fails on every invocation is invoked exactly
`maxRetries` (= 3) times; the engine returns the last handler error
wrapped with the attempt count (`failedAfter maxRetries`); the dispatch
loop then Nacks (never Acks) and, the channel having room, sends that
final error on the error channel. -/
theorem always_failing_handler_exhausts_and_nacks
    (handler : Nat → Option String) (base : Nat) (buf : List RetryResult)
    (hfail : ∀ n, (handler n).isSome)
    (hroom : buf.length < errChanCap) :
    (retryWithBackoff handler none maxRetries base).invocations = maxRetries
    ∧ (retryWithBackoff handler none maxRetries base).result
        = .failedAfter maxRetries (handler maxRetries)
    ∧ (dispatchOne buf (retryWithBackoff handler none maxRetries base).result).1
        = ⟨false, true, true, false⟩
    ∧ (dispatchOne buf (retryWithBackoff handler none maxRetries base).result).2
        = buf ++ [(retryWithBackoff handler none maxRetries base).result] := by
  obtain ⟨e1, h1⟩ := Option.isSome_iff_exists.mp (hfail 1)
  obtain ⟨e2, h2⟩ := Option.isSome_iff_exists.mp (hfail 2)
  obtain ⟨e3, h3⟩ := Option.isSome_iff_exists.mp (hfail 3)
  simp [retryWithBackoff, retryGo, maxRetries, h1, h2, h3, cancelObserved,
    dispatchOne, RetryResult.isErr, hroom]

/-- C1 witness. -/
theorem always_failing_handler_exhausts_and_nacks_wit :
    (retryWithBackoff (fun _ => some "boom") none maxRetries 1).invocations = maxRetries
    ∧ (retryWithBackoff (fun _ => some "boom") none maxRetries 1).result
        = .failedAfter maxRetries ((fun _ => some "boom") maxRetries)
    ∧ (dispatchOne [] (retryWithBackoff (fun _ => some "boom") none maxRetries 1).result).1
        = ⟨false, true, true, false⟩
    ∧ (dispatchOne [] (retryWithBackoff (fun _ => some "boom") none maxRetries 1).result).2
        = [] ++ [(retryWithBackoff (fun _ => some "boom") none maxRetries 1).result] :=
  always_failing_handler_exhausts_and_nacks (fun _ => some "boom") 1 []
    (fun _ => by simp) (by decide)

/-- C2: a handler that first succeeds on attempt `k ≤ maxRetries` is
invoked exactly `k` times, the engine returns success, and the dispatch
loop Acks without touching the error channel. -/
theorem handler_success_on_attempt_k_acks
    (handler : Nat → Option String) (k base : Nat) (buf : List RetryResult)
    (hk1 : 1 ≤ k) (hk : k ≤ maxRetries)
    (hbefore : ∀ i, 1 ≤ i → i < k → (handler i).isSome)
    (hsucc : handler k = none) :
    (retryWithBackoff handler none maxRetries base).invocations = k
    ∧ (retryWithBackoff handler none maxRetries base).result = .ok
    ∧ dispatchOne buf (retryWithBackoff handler none maxRetries base).result
        = (⟨true, false, false, false⟩, buf) := by
  have hk3 : k ≤ 3 := hk
  interval_cases k
  · simp [retryWithBackoff, retryGo, maxRetries, hsucc, dispatchOne, RetryResult.isErr]
  · obtain ⟨e1, h1⟩ := Option.isSome_iff_exists.mp (hbefore 1 (by omega) (by omega))
    simp [retryWithBackoff, retryGo, maxRetries, h1, hsucc, cancelObserved,
      dispatchOne, RetryResult.isErr]
  · obtain ⟨e1, h1⟩ := Option.isSome_iff_exists.mp (hbefore 1 (by omega) (by omega))
    obtain ⟨e2, h2⟩ := Option.isSome_iff_exists.mp (hbefore 2 (by omega) (by omega))
    simp [retryWithBackoff, retryGo, maxRetries, h1, h2, hsucc, cancelObserved,
      dispatchOne, RetryResult.isErr]

/-- C2 witness (success on the second attempt). -/
theorem handler_success_on_attempt_k_acks_wit :
    (retryWithBackoff (fun n => if n = 2 then none else some "boom") none maxRetries 1).invocations = 2
    ∧ (retryWithBackoff (fun n => if n = 2 then none else some "boom") none maxRetries 1).result
        = .ok
    ∧ dispatchOne []
        (retryWithBackoff (fun n => if n = 2 then none else some "boom") none maxRetries 1).result
        = (⟨true, false, false, false⟩, []) :=
  handler_success_on_attempt_k_acks (fun n => if n = 2 then none else some "boom") 2 1 []
    (by decide) (by decide) (fun i h1 h2 => by interval_cases i; simp) (by simp)

/-- C3: when the cancellation signal fires during backoff sleep `j` (in
particular before that sleep's timer completes), the engine stops after
the `j` invocations already made and returns the context's cancellation
error; `j = 1` gives exactly one invocation before abort. -/
theorem cancellation_during_backoff_aborts
    (handler : Nat → Option String) (j base : Nat)
    (hj1 : 1 ≤ j) (hj : j < maxRetries)
    (hfail : ∀ i, 1 ≤ i → i ≤ j → (handler i).isSome) :
    (retryWithBackoff handler (some j) maxRetries base).invocations = j
    ∧ (retryWithBackoff handler (some j) maxRetries base).result = .cancelled := by
  have hj3 : j < 3 := hj
  interval_cases j
  · obtain ⟨e1, h1⟩ := Option.isSome_iff_exists.mp (hfail 1 (by omega) (by omega))
    simp [retryWithBackoff, retryGo, maxRetries, h1, cancelObserved]
  · obtain ⟨e1, h1⟩ := Option.isSome_iff_exists.mp (hfail 1 (by omega) (by omega))
    obtain ⟨e2, h2⟩ := Option.isSome_iff_exists.mp (hfail 2 (by omega) (by omega))
    simp [retryWithBackoff, retryGo, maxRetries, h1, h2, cancelObserved]

/-- C3 witness (cancellation during the first backoff sleep). -/
theorem cancellation_during_backoff_aborts_wit :
    (retryWithBackoff (fun _ => some "boom") (some 1) maxRetries 1).invocations = 1
    ∧ (retryWithBackoff (fun _ => some "boom") (some 1) maxRetries 1).result = .cancelled :=
  cancellation_during_backoff_aborts (fun _ => some "boom") 1 1 (by decide) (by decide)
    (fun i _ _ => by simp)

/-- C4: `maxRetries` defaults to 3 and the base delay to 1 second, and for
any run with an uncancelled context the completed backoff sleeps are
exactly `base·2⁰, base·2¹, …`, one per attempt except the last one made —
so the delay after failing attempt `i` is `base · 2^(i-1)`, and no sleep
follows the final attempt or a successful attempt. -/
theorem backoff_delays_double :
    maxRetries = 3 ∧ retryBaseDelay = 1
    ∧ ∀ (handler : Nat → Option String) (mr base : Nat),
        (retryWithBackoff handler none mr base).sleeps
          = (List.range ((retryWithBackoff handler none mr base).invocations - 1)).map
              (fun i => base * 2 ^ i) :=
  ⟨rfl, rfl, fun handler mr base => retryGo_sleeps_schedule handler mr mr 1 base⟩

/-- C10: a context already cancelled on entry does not prevent the first
handler invocation — cancellation is observed only at the backoff sleep.
A failing handler is invoked exactly once and the cancellation error is
returned; a handler succeeding on its first invocation yields success
despite the cancelled context. -/
theorem precancelled_context_still_invokes_once
    (handler : Nat → Option String) (base : Nat) :
    (handler 1 = none →
      retryWithBackoff handler (some 0) maxRetries base = ⟨1, [], .ok⟩)
    ∧ (∀ e, handler 1 = some e →
      retryWithBackoff handler (some 0) maxRetries base = ⟨1, [], .cancelled⟩) := by
  constructor
  · intro h
    simp [retryWithBackoff, retryGo, maxRetries, h]
  · intro e h
    simp [retryWithBackoff, retryGo, maxRetries, h, cancelObserved]

/-- C10 witness (both a succeeding and a failing first attempt). -/
theorem precancelled_context_still_invokes_once_wit :
    retryWithBackoff (fun _ => none) (some 0) maxRetries 1 = ⟨1, [], .ok⟩
    ∧ retryWithBackoff (fun _ => some "boom") (some 0) maxRetries 1 = ⟨1, [], .cancelled⟩ :=
  ⟨(precancelled_context_still_invokes_once (fun _ => none) 1).1 rfl,
   (precancelled_context_still_invokes_once (fun _ => some "boom") 1).2 "boom" rfl⟩

/-- C6: the error channel created by `Subscribe` has capacity exactly 100;
when the retry engine surfaces a final error while the channel is full the
dispatch loop Nacks, drops the error (logging it) and leaves the channel
untouched; and the loop keeps producing an Ack-or-Nack outcome for every
subsequent message regardless of the channel's state. -/
theorem error_channel_capacity_and_drop
    (buf : List RetryResult) (r : RetryResult)
    (hfull : errChanCap ≤ buf.length) (herr : r.isErr = true) :
    errChanCap = 100
    ∧ dispatchOne buf r = (⟨false, true, false, true⟩, buf)
    ∧ ∀ (buf' ms : List RetryResult),
        (dispatchLoop buf' ms).1.length = ms.length
        ∧ (dispatchLoop buf' ms).1.map (fun o => o.acked || o.nacked)
            = ms.map (fun _ => true) := by
  refine ⟨rfl, ?_, fun buf' ms => dispatchLoop_progress ms buf'⟩
  simp [dispatchOne, herr, Nat.not_lt.mpr hfull]

/-- C6 witness: a full channel (100 buffered errors) drops the 101st. -/
theorem error_channel_capacity_and_drop_wit :
    errChanCap = 100
    ∧ dispatchOne (List.replicate 100 RetryResult.cancelled) RetryResult.cancelled
        = (⟨false, true, false, true⟩, List.replicate 100 RetryResult.cancelled)
    ∧ ∀ (buf' ms : List RetryResult),
        (dispatchLoop buf' ms).1.length = ms.length
        ∧ (dispatchLoop buf' ms).1.map (fun o => o.acked || o.nacked)
            = ms.map (fun _ => true) :=
  error_channel_capacity_and_drop (List.replicate 100 RetryResult.cancelled)
    RetryResult.cancelled (by simp [errChanCap]) (by simp [RetryResult.isErr])

/-- The full shutdown protocol order documented on `Close`:
subscriber → forwarder (when running) → in-flight wait → publisher → db. -/
def closeOrder (env : CloseEnv) : List CloseStep :=
  [.closeSub] ++ (if env.fwdRunning then [.closeFwd] else [])
    ++ [.waitHandlers, .closePub, .closeDb]

/-- C5 counterexample: when closing the subscriber fails, `Close` returns
that error immediately — the forwarder close, the in-flight wait, the
publisher close and the database close are all skipped, contradicting the
claim that an error in any step does not prevent the subsequent steps from
being attempted. -/
theorem close_sub_error_skips_rest_cex :
    (closeBus ⟨true, true, false, false, false, false⟩).steps = [CloseStep.closeSub]
    ∧ (closeBus ⟨true, true, false, false, false, false⟩).result = CloseResult.subFail
    ∧ CloseStep.closeFwd ∉ (closeBus ⟨true, true, false, false, false, false⟩).steps
    ∧ CloseStep.closePub ∉ (closeBus ⟨true, true, false, false, false, false⟩).steps
    ∧ CloseStep.closeDb ∉ (closeBus ⟨true, true, false, false, false, false⟩).steps := by
  decide

/-- C5 (amended): `Close` attempts its steps in the fixed order subscriber
→ forwarder (if running) → bounded in-flight wait → publisher → database;
the wait's timeout is only logged and never blocks the remaining steps;
but an error closing the subscriber or the forwarder makes `Close` return
immediately, skipping every later step, and a publisher-close error skips
the database close.  (Only the in-flight-wait step is log-and-proceed.) -/
theorem close_ordered_but_early_error_skips (a b c d e f : Bool) :
    List.Sublist (closeBus ⟨a, b, c, d, e, f⟩).steps (closeOrder ⟨a, b, c, d, e, f⟩)
    ∧ (b = false → (a && c) = false →
        (closeBus ⟨a, b, c, d, e, f⟩).timedOutLogged = d
        ∧ CloseStep.waitHandlers ∈ (closeBus ⟨a, b, c, d, e, f⟩).steps
        ∧ CloseStep.closePub ∈ (closeBus ⟨a, b, c, d, e, f⟩).steps)
    ∧ (b = true →
        closeBus ⟨a, b, c, d, e, f⟩ = ⟨[CloseStep.closeSub], false, CloseResult.subFail⟩)
    ∧ (b = false → (a && c) = true →
        closeBus ⟨a, b, c, d, e, f⟩
          = ⟨[CloseStep.closeSub, CloseStep.closeFwd], false, CloseResult.fwdFail⟩)
    ∧ (b = false → (a && c) = false → e = true →
        CloseStep.closeDb ∉ (closeBus ⟨a, b, c, d, e, f⟩).steps
        ∧ (closeBus ⟨a, b, c, d, e, f⟩).result = CloseResult.pubFail)
    ∧ (b = false → (a && c) = false → e = false →
        (closeBus ⟨a, b, c, d, e, f⟩).steps = closeOrder ⟨a, b, c, d, e, f⟩
        ∧ (closeBus ⟨a, b, c, d, e, f⟩).result
            = (if f then CloseResult.dbFail else CloseResult.ok)) := by
  cases a <;> cases b <;> cases c <;> cases d <;> cases e <;> cases f <;>
    exact ⟨by decide, by decide, by decide, by decide, by decide, by decide⟩

/-- C5 witness: a forwarder-mode bus whose in-flight wait times out still
attempts the publisher and database closes, in protocol order. -/
theorem close_ordered_but_early_error_skips_wit :
    List.Sublist (closeBus ⟨true, false, false, true, false, false⟩).steps
      (closeOrder ⟨true, false, false, true, false, false⟩)
    ∧ ((closeBus ⟨true, false, false, true, false, false⟩).timedOutLogged = true
        ∧ CloseStep.waitHandlers ∈ (closeBus ⟨true, false, false, true, false, false⟩).steps
        ∧ CloseStep.closePub ∈ (closeBus ⟨true, false, false, true, false, false⟩).steps)
    ∧ ((closeBus ⟨true, false, false, true, false, false⟩).steps
          = closeOrder ⟨true, false, false, true, false, false⟩
        ∧ (closeBus ⟨true, false, false, true, false, false⟩).result = CloseResult.ok) :=
  ⟨(close_ordered_but_early_error_skips true false false true false false).1,
   (close_ordered_but_early_error_skips true false false true false false).2.1 rfl rfl,
   by
    have h := (close_ordered_but_early_error_skips true false false true false false).2.2.2.2.2
      rfl rfl rfl
    exact ⟨h.1, h.2⟩⟩

/-- C7: `StartForwarder` refuses, without spawning the forwarder task or
mutating the bus, both a call on a non-forwarder bus and a second call on
a bus whose forwarder task has already been started; the two configuration
errors are distinct values from the storage-failure errors. -/
theorem startForwarder_usage_guards (uf fs sf pf cf cc sf2 pf2 cf2 cc2 : Bool) :
    (uf = false →
      startForwarder ⟨uf, fs⟩ ⟨sf, pf, cf, cc⟩
        = ⟨some .notForwarderBus, ⟨uf, fs⟩, false⟩)
    ∧ (uf = true → fs = true →
      startForwarder ⟨uf, fs⟩ ⟨sf, pf, cf, cc⟩
        = ⟨some .alreadyStarted, ⟨uf, fs⟩, false⟩)
    ∧ ((startForwarder ⟨uf, fs⟩ ⟨sf, pf, cf, cc⟩).goroutineStarted = true →
      startForwarder (startForwarder ⟨uf, fs⟩ ⟨sf, pf, cf, cc⟩).state ⟨sf2, pf2, cf2, cc2⟩
        = ⟨some .alreadyStarted, (startForwarder ⟨uf, fs⟩ ⟨sf, pf, cf, cc⟩).state, false⟩)
    ∧ StartErr.notForwarderBus ≠ StartErr.newSubscriberFailed
    ∧ StartErr.notForwarderBus ≠ StartErr.newTargetPublisherFailed
    ∧ StartErr.alreadyStarted ≠ StartErr.newSubscriberFailed
    ∧ StartErr.alreadyStarted ≠ StartErr.newTargetPublisherFailed := by
  refine ⟨fun h => ?_, fun h1 h2 => ?_, fun h => ?_, by decide, by decide, by decide, by decide⟩
  · simp [startForwarder, h]
  · simp [startForwarder, h1, h2]
  · revert h
    cases uf <;> cases fs <;> cases sf <;> cases pf <;> cases cf <;> cases cc <;>
      simp [startForwarder]

/-- C7 witness: the non-forwarder guard, the already-started guard, and
the second call after a successful start. -/
theorem startForwarder_usage_guards_wit :
    startForwarder ⟨false, false⟩ ⟨false, false, false, false⟩
      = ⟨some .notForwarderBus, ⟨false, false⟩, false⟩
    ∧ startForwarder ⟨true, true⟩ ⟨false, false, false, false⟩
      = ⟨some .alreadyStarted, ⟨true, true⟩, false⟩
    ∧ startForwarder (startForwarder ⟨true, false⟩ ⟨false, false, false, false⟩).state
        ⟨false, false, false, false⟩
      = ⟨some .alreadyStarted,
         (startForwarder ⟨true, false⟩ ⟨false, false, false, false⟩).state, false⟩ :=
  ⟨(startForwarder_usage_guards false false false false false false false false false false).1
      rfl,
   (startForwarder_usage_guards true true false false false false false false false false).2.1
      rfl rfl,
   (startForwarder_usage_guards true false false false false false false false false false).2.2.1
      (by decide)⟩

/-- Setting a key with `metaSet` and then looking it up returns the value
just set, whatever bindings the metadata already held. -/
theorem metaGet_metaSet_self (md : List (String × String)) (k v : String) :
    metaGet (metaSet md k v) k = some v := by
  induction md with
  | nil => simp [metaSet, metaGet]
  | cons p ps ih =>
    cases hb : p.1 == k with
    | true =>
      have h : metaSet (p :: ps) k v = metaSet ps k v := by
        simp [metaSet, hb]
      rw [h]; exact ih
    | false =>
      have h : metaSet (p :: ps) k v = p :: metaSet ps k v := by
        simp [metaSet, hb]
      rw [h]
      simpa [metaGet, List.find?, hb] using ih

/-- C8: `Publish` stores every message with the caller's trace context
injected into its metadata (in both direct and forwarder mode), and the
carrier the `Subscribe` goroutine rebuilds from that metadata extracts the
very trace identifier that was active at publish time — the round-trip
holds whatever metadata the message already carried. -/
theorem trace_inject_extract_roundtrip (tid topic : String) (msgs : List Msg) :
    busPublish false (some tid) topic msgs
      = msgs.map (fun m => StoreWrite.direct topic (publishInject (some tid) m))
    ∧ busPublish true (some tid) topic msgs
      = msgs.map (fun m => StoreWrite.envelope forwarderTopic topic (publishInject (some tid) m))
    ∧ msgs.map (fun m => subscribeExtract (publishInject (some tid) m))
      = msgs.map (fun _ => some tid) := by
  have h : ∀ m : Msg, subscribeExtract (publishInject (some tid) m) = some tid := by
    intro m
    simp [subscribeExtract, publishInject, injectTrace, extractTrace, metaGet_metaSet_self]
  exact ⟨by simp [busPublish], by simp [busPublish], by simp [h]⟩

/-- C9: with forwarder mode on, both `Publish` and a `NewTxPublisher`
publisher write Outbox Envelopes to the reserved internal topic
`"_forwarder_queue"` instead of the caller's topic, while the caller still
passes the real topic unchanged — it is recorded inside the envelope as
the destination. -/
theorem forwarder_mode_publishes_envelopes (tc : Option String) (topic : String)
    (msgs : List Msg) :
    forwarderTopic = "_forwarder_queue"
    ∧ busPublish true tc topic msgs
        = (msgs.map (publishInject tc)).map (StoreWrite.envelope forwarderTopic topic)
    ∧ txPublish true topic msgs = msgs.map (StoreWrite.envelope forwarderTopic topic) :=
  ⟨rfl, by simp [busPublish], by simp [txPublish]⟩

end Events
